import Mathlib

/-!
Shallow embedding of the todo-backend task service: the response formatter
(src/utils/responseHelper.ts), the task entity handlers
(src/controllers/taskController.ts) and the centralized error-handling
middleware (the server entry file), together with theorems settling the
frozen claims about them.

The persistence layer (Prisma over a relational store) is embedded as a list
of task records plus an auto-increment counter; the schema facts the code
relies on (primary key on `id`, unique constraint on `title`, `completed`
defaulting to false) come from the spec because prisma/schema.prisma is not
among the provided sources.
-/

namespace Todo

/-- A task record, mirroring the Prisma `Task` model used by the controller:
`id` (integer key), `title`, `color`, `completed`. -/
structure Task where
  id : Nat
  title : String
  color : String
  completed : Bool
deriving DecidableEq, Repr

/-- The JSON envelope written by the response helpers. `statusCode` is an
`Option` so that its presence in the body is observable; `data` is `none`
when the body has no `data` key (the error envelope). -/
structure Envelope where
  status : String
  statusCode : Option Nat
  message : String
  data : Option (Option (List Task))
deriving DecidableEq, Repr

/-- The transport-level response object (`res`): the HTTP status set via
`res.status(...)` (`none` while unset, in which case the framework defaults
to 200 when the body is sent) and the JSON body written via `res.json(...)`. -/
structure HttpResponse where
  transportStatus : Option Nat
  body : Option Envelope
deriving DecidableEq, Repr

/-- A fresh response object: no status set, no body written. -/
def res0 : HttpResponse := ⟨none, none⟩

/-- `sendSuccess` from src/utils/responseHelper.ts:
`res.status(statusCode).json(\x7bstatus: "success", statusCode, message, data\x7d)`. -/
def sendSuccess (res : HttpResponse) (data : Option (List Task))
    (message : String := "Success") (statusCode : Nat := 200) : HttpResponse :=
  { res with
    transportStatus := some statusCode
    body := some ⟨"success", some statusCode, message, some data⟩ }

/-- `sendError` from src/utils/responseHelper.ts:
`res.json(\x7bstatusCode, status: "error", message: errorMessage\x7d)` — note the
body is written without a `res.status(...)` call, so `transportStatus` is
left as it was. -/
def sendError (res : HttpResponse) (errorMessage : String)
    (statusCode : Nat := 400) : HttpResponse :=
  { res with body := some ⟨"error", some statusCode, errorMessage, none⟩ }

/-- JS `String.prototype.trim` over the character sequence: drop leading and
trailing whitespace. -/
def trimChars (l : List Char) : List Char :=
  ((l.dropWhile Char.isWhitespace).reverse.dropWhile Char.isWhitespace).reverse

/-- Title normalization as performed by `createTask`:
`title.trim().toLowerCase()`, character-wise. -/
def normalizeTitle (t : String) : String :=
  ⟨(trimChars t.data).map Char.toLower⟩

/-- A parsed request body. Each field is `none` when the key is absent from
the JSON body (unknown keys are stripped by the zod schema and are not
modelled). -/
structure RequestBody where
  title : Option String
  color : Option String
  completed : Option Bool
deriving DecidableEq, Repr

/-- `taskSchema.parse` (zod): `title` required and non-empty (message
"Title is required" on an empty string, zod's "Required" when absent),
`color` required, `completed` optional. Returns the first violated field's
message on failure, in schema key order, mirroring `error.errors[0].message`. -/
def taskSchemaParse (b : RequestBody) :
    Except String (String × String × Option Bool) :=
  match b.title with
  | none => .error "Required"
  | some t =>
    if t = "" then .error "Title is required"
    else
      match b.color with
      | none => .error "Required"
      | some c => .ok (t, c, b.completed)

/-- `taskSchema.partial().parse` (zod): every field optional, but a `title`
that is present must still be a non-empty string. -/
def taskSchemaPartialParse (b : RequestBody) : Except String RequestBody :=
  match b.title with
  | some t => if t = "" then .error "Title is required" else .ok b
  | none => .ok b

/-- Merging the validated partial data into an existing record, as
`prisma.task.update` does column-wise with the `data` object. -/
def applyPartial (t : Task) (d : RequestBody) : Task :=
  { t with
    title := d.title.getD t.title
    color := d.color.getD t.color
    completed := d.completed.getD t.completed }

/-- Errors surfaced by the storage layer, identified by their Prisma code. -/
inductive DbError where
  | uniqueViolation : List String → DbError
  | notFound : DbError
deriving DecidableEq, Repr

/-- The Prisma error code string carried by a storage error. -/
def DbError.code : DbError → String
  | .uniqueViolation _ => "P2002"
  | .notFound => "P2025"

/-- The task store: the rows of the `task` table plus the auto-increment
counter for `id`. -/
structure Store where
  tasks : List Task
  nextId : Nat
deriving DecidableEq, Repr

/-- `prisma.task.findUnique(\x7bwhere: \x7bid\x7d\x7d)`. -/
def Store.findById (s : Store) (id : Nat) : Option Task :=
  s.tasks.find? (fun t => t.id == id)

/-- `prisma.task.findUnique(\x7bwhere: \x7btitle\x7d\x7d)` — exact match on the
stored column value (the unique index is on the stored string). -/
def Store.findByTitle (s : Store) (title : String) : Option Task :=
  s.tasks.find? (fun t => t.title == title)

/-- Modelled from the spec: prisma/schema.prisma is not among the sources;
per the spec's data model, `completed` "defaults to false" and the storage
layer "enforces the title-uniqueness invariant ... (unique constraint)".
`prisma.task.create(\x7bdata: \x7btitle, color\x7d\x7d)` therefore inserts a row with
the next id and `completed := false`, or reports `P2002` when a row with the
same stored title exists. -/
def Store.create (s : Store) (title color : String) :
    Except DbError (Task × Store) :=
  if s.tasks.any (fun t => t.title == title) then
    .error (.uniqueViolation ["title"])
  else
    let newTask : Task := ⟨s.nextId, title, color, false⟩
    .ok (newTask, ⟨s.tasks ++ [newTask], s.nextId + 1⟩)

/-- Modelled from the spec: `prisma.task.update` against the missing schema —
fails with `P2025` when the id is absent and with `P2002` when the updated
row would collide with another row on the unique `title` column; otherwise
replaces the row in place. -/
def Store.updateById (s : Store) (id : Nat) (d : RequestBody) :
    Except DbError (Task × Store) :=
  match s.tasks.find? (fun t => t.id == id) with
  | none => .error .notFound
  | some t =>
    let t2 := applyPartial t d
    if s.tasks.any (fun u => u.id != id && u.title == t2.title) then
      .error (.uniqueViolation ["title"])
    else
      .ok (t2, ⟨s.tasks.map (fun u => if u.id == id then t2 else u), s.nextId⟩)

/-- `prisma.task.delete(\x7bwhere: \x7bid\x7d\x7d)` after the handler's existence
pre-check: removes the row with the given id. -/
def Store.deleteById (s : Store) (id : Nat) : Store :=
  ⟨s.tasks.filter (fun t => t.id != id), s.nextId⟩

/-- The Prisma arm of `createTask`'s catch block (taskController.ts lines
66-78): `P2002` maps to the 400 duplicate-title message, any other database
code to a 500 "Failed to create task". -/
def createTaskDbErrorResponse (code : String) : HttpResponse :=
  if code = "P2002" then
    sendError res0 "A task with this title already exists. Please use a unique title." 400
  else
    sendError res0 "Failed to create task" 500

/-- `createTask` (taskController.ts lines 32-85): validate, normalize the
title, pre-check existence by title, then persist; zod failures map to 400
with the first issue's message, Prisma failures through
`createTaskDbErrorResponse`. Returns the written response and the store
after the request. -/
def createTask (s : Store) (body : RequestBody) : HttpResponse × Store :=
  match taskSchemaParse body with
  | .error m => (sendError res0 m 400, s)
  | .ok (title, color, _) =>
    let normalizedTitle := normalizeTitle title
    match s.findByTitle normalizedTitle with
    | some _ =>
      (sendError res0 "A task with this title already exists. Please use a unique title" 400, s)
    | none =>
      match s.create normalizedTitle color with
      | .ok (newTask, s2) =>
        (sendSuccess res0 (some [newTask]) "Task created successfully" 201, s2)
      | .error e => (createTaskDbErrorResponse e.code, s)

/-- `updateTask` (taskController.ts lines 88-124): existence pre-check by id
(404 "Task not found"), then partial validation (zod failure maps to 400
with the first issue's message), then `prisma.task.update`; any non-zod
failure of the update maps to 500 "Failed to update task". -/
def updateTask (s : Store) (id : Nat) (body : RequestBody) :
    HttpResponse × Store :=
  match s.findById id with
  | none => (sendError res0 "Task not found" 404, s)
  | some _ =>
    match taskSchemaPartialParse body with
    | .error m => (sendError res0 m 400, s)
    | .ok d =>
      match s.updateById id d with
      | .ok (t2, s2) => (sendSuccess res0 (some [t2]) "Task updated successfully" 200, s2)
      | .error _ => (sendError res0 "Failed to update task" 500, s)

/-- `deleteTask` (taskController.ts lines 127-153): existence pre-check by id
(404 "Task not found"), then delete and respond with a null payload. -/
def deleteTask (s : Store) (id : Nat) : HttpResponse × Store :=
  match s.findById id with
  | none => (sendError res0 "Task not found" 404, s)
  | some _ =>
    (sendSuccess res0 none "Task deleted successfully" 200, s.deleteById id)

/-- An error reaching the centralized middleware: `isCustomError` models
`err instanceof CustomError` (with the status code the custom error
carries), `code`/`metaTarget` model the Prisma error fields checked via
`'code' in err` and `err.meta?.target`. -/
structure AppError where
  isCustomError : Bool
  customStatusCode : Nat
  message : String
  code : Option String
  metaTarget : Option (List String)
deriving DecidableEq, Repr

/-- The centralized error-handling middleware from the server entry file
(lines 44-93): custom errors echoed verbatim, then Prisma codes `P2002`
(400, message naming `meta.target[0]`, falling back to "field" when that is
absent or empty, per the `|| 'field'` default), `P2025` (404), other codes
(500), and finally the unclassified-error arm whose message depends on
`process.env.NODE_ENV`, with the JS `||` fallback on an empty message. -/
def errorMiddleware (env : String) (err : AppError) : HttpResponse :=
  if err.isCustomError then
    sendError res0 err.message err.customStatusCode
  else
    match err.code with
    | some c =>
      if c = "P2002" then
        let t0 := (err.metaTarget.getD []).headD ""
        let target := if t0 = "" then "field" else t0
        sendError res0
          ("A task with this " ++ target ++ " already exists. Please use a unique value.") 400
      else if c = "P2025" then
        sendError res0 "Resource not found" 404
      else
        sendError res0 "Database operation failed" 500
    | none =>
      sendError res0
        (if env = "production" then "Something went wrong. Please try again later."
         else if err.message = "" then "Unknown error occurred" else err.message) 500

/-- C1: the response formatter is claimed to both embed the status code in
the envelope and set it as the HTTP transport status on every response;
`sendError`, however, writes its body with `res.json` alone and never calls
`res.status`, so at the concrete call `sendError(res, "Task not found", 404)`
the transport status is still unset (the framework default, 200) while the
body carries `statusCode: 404`. `sendSuccess` does set both. -/
theorem sendError_leaves_transport_status_unset :
    (sendError res0 "Task not found" 404).transportStatus = none ∧
    (sendError res0 "Task not found" 404).body =
      some ⟨"error", some 404, "Task not found", none⟩ ∧
    (sendSuccess res0 none "Task deleted successfully" 200).transportStatus = some 200 ∧
    (sendSuccess res0 none "Task deleted successfully" 200).body =
      some ⟨"success", some 200, "Task deleted successfully", some none⟩ := by
  refine ⟨rfl, rfl, rfl, rfl⟩

/-- C2 counterexample: the claim says every stored title was normalized and
that `updateTask` stores only normalized titles. Starting from a store whose
one task is `⟨1, "foo", "blue", false⟩`, the update request `id = 1`,
`body = \x7btitle: "BAR "\x7d` succeeds (status "success") and persists the title
`"BAR "` verbatim, although its normalized form is `"bar"` — so the stored
title is not normalized. -/
theorem updateTask_stores_unnormalized_title :
    ((updateTask ⟨[⟨1, "foo", "blue", false⟩], 2⟩ 1
        ⟨some "BAR ", none, none⟩).2.tasks.map Task.title = ["BAR "]) ∧
    normalizeTitle "BAR " = "bar" ∧
    ("BAR " : String) ≠ "bar" ∧
    ((updateTask ⟨[⟨1, "foo", "blue", false⟩], 2⟩ 1
        ⟨some "BAR ", none, none⟩).1.body.map Envelope.status = some "success") := by
  refine ⟨by decide, by decide, by decide, by decide⟩

/-- C2 amended: `createTask` stores only normalized titles — every task in
the store after a create that validated title `t` is either an old task or
carries title `normalizeTitle t`; `updateTask`, by contrast, persists a
supplied title verbatim, without normalizing — every task in the store after
an update whose body carried title `v` is either an old task or carries
title `v` itself, so the normalization invariant is not preserved by
`updateTask`. -/
theorem normalization_on_create_but_not_update :
    (∀ (s : Store) (body : RequestBody) (t c : String) (comp : Option Bool),
       taskSchemaParse body = Except.ok (t, c, comp) →
       ∀ u ∈ (createTask s body).2.tasks, u ∈ s.tasks ∨ u.title = normalizeTitle t) ∧
    (∀ (s : Store) (id : Nat) (body : RequestBody) (v : String),
       body.title = some v →
       ∀ u ∈ (updateTask s id body).2.tasks, u ∈ s.tasks ∨ u.title = v) := by
  constructor
  · intro s body t c comp hparse u hu
    cases hfind : s.findByTitle (normalizeTitle t) with
    | some w =>
      have heq : (createTask s body).2 = s := by
        simp [createTask, hparse, hfind]
      rw [heq] at hu; exact Or.inl hu
    | none =>
      by_cases hany : s.tasks.any (fun x => x.title == normalizeTitle t) = true
      · have heq : (createTask s body).2 = s := by
          simp [createTask, hparse, hfind, Store.create, hany]
        rw [heq] at hu; exact Or.inl hu
      · have heq : (createTask s body).2.tasks =
            s.tasks ++ [⟨s.nextId, normalizeTitle t, c, false⟩] := by
          simp [createTask, hparse, hfind, Store.create, hany]
        rw [heq] at hu
        rw [List.mem_append] at hu
        rcases hu with h | h
        · exact Or.inl h
        · rw [List.mem_singleton] at h
          subst h; exact Or.inr rfl
  · intro s id body v hv u hu
    cases hfind : s.findById id with
    | none =>
      have heq : (updateTask s id body).2 = s := by
        simp [updateTask, hfind]
      rw [heq] at hu; exact Or.inl hu
    | some t0 =>
      by_cases hv0 : v = ""
      · have hp : taskSchemaPartialParse body = .error "Title is required" := by
          simp [taskSchemaPartialParse, hv, hv0]
        have heq : (updateTask s id body).2 = s := by
          simp [updateTask, hfind, hp]
        rw [heq] at hu; exact Or.inl hu
      · have hp : taskSchemaPartialParse body = .ok body := by
          simp [taskSchemaPartialParse, hv, hv0]
        cases hfind2 : s.tasks.find? (fun x => x.id == id) with
        | none =>
          have heq : (updateTask s id body).2 = s := by
            simp [updateTask, hfind, hp, Store.updateById, hfind2]
          rw [heq] at hu; exact Or.inl hu
        | some t1 =>
          by_cases hany : s.tasks.any
              (fun x => x.id != id && x.title == (applyPartial t1 body).title) = true
          · have heq : (updateTask s id body).2 = s := by
              simp [updateTask, hfind, hp, Store.updateById, hfind2, hany]
            rw [heq] at hu; exact Or.inl hu
          · have heq : (updateTask s id body).2.tasks = s.tasks.map
                (fun x => if x.id == id then applyPartial t1 body else x) := by
              simp [updateTask, hfind, hp, Store.updateById, hfind2, hany]
            rw [heq] at hu
            rw [List.mem_map] at hu
            rcases hu with ⟨w, hw, hwu⟩
            by_cases hid : (w.id == id) = true
            · rw [if_pos hid] at hwu
              right
              rw [← hwu]
              simp [applyPartial, hv]
            · rw [if_neg hid] at hwu
              exact Or.inl (hwu ▸ hw)

/-- C2 amended witness: the second conjunct at the concrete update of
task 1's title to "BAR ": the task found in the resulting store either was
already stored or carries the verbatim title "BAR ". -/
theorem normalization_on_create_but_not_update_witness :
    (⟨1, "BAR ", "blue", false⟩ : Task) ∈
        (⟨[⟨1, "foo", "blue", false⟩], 2⟩ : Store).tasks ∨
    (⟨1, "BAR ", "blue", false⟩ : Task).title = "BAR " :=
  normalization_on_create_but_not_update.2 ⟨[⟨1, "foo", "blue", false⟩], 2⟩ 1
    ⟨some "BAR ", none, none⟩ "BAR " rfl ⟨1, "BAR ", "blue", false⟩ (by decide)

/-- C3: for every update or delete request whose id matches no stored task,
the handler's pre-check answers with the 404 "Task not found" envelope and
leaves the store untouched — for `updateTask` this happens before the body
is partial-validated, so it holds for every body, valid or not, and no raw
storage error is surfaced. -/
theorem missing_id_always_404 (s : Store) (id : Nat) (body : RequestBody)
    (h : s.findById id = none) :
    (updateTask s id body).1.body =
      some ⟨"error", some 404, "Task not found", none⟩ ∧
    (updateTask s id body).2 = s ∧
    (deleteTask s id).1.body =
      some ⟨"error", some 404, "Task not found", none⟩ ∧
    (deleteTask s id).2 = s := by
  refine ⟨?_, ?_, ?_, ?_⟩ <;> simp [updateTask, deleteTask, h, sendError, res0]

/-- C3 witness: on the empty store, update of id 1 with an invalid body
(empty title) and delete of id 1 both answer 404 "Task not found" and leave
the store empty. -/
theorem missing_id_always_404_witness :
    (updateTask ⟨[], 1⟩ 1 ⟨some "", none, none⟩).1.body =
      some ⟨"error", some 404, "Task not found", none⟩ ∧
    (updateTask ⟨[], 1⟩ 1 ⟨some "", none, none⟩).2 = ⟨[], 1⟩ ∧
    (deleteTask ⟨[], 1⟩ 1).1.body =
      some ⟨"error", some 404, "Task not found", none⟩ ∧
    (deleteTask ⟨[], 1⟩ 1).2 = ⟨[], 1⟩ :=
  missing_id_always_404 ⟨[], 1⟩ 1 ⟨some "", none, none⟩ (by decide)

/-- C4: over a store whose titles are all normalized (the documented data
model invariant), a validated create whose normalized title matches the
normalized title of some stored task answers the 400 duplicate envelope and
persists nothing, while a validated create matching no stored task persists
exactly one new record (normalized title, given color) and answers 201. -/
theorem createTask_duplicate_pre_check (s : Store) (body : RequestBody)
    (t c : String) (comp : Option Bool)
    (hparse : taskSchemaParse body = Except.ok (t, c, comp))
    (hinv : ∀ u ∈ s.tasks, u.title = normalizeTitle u.title) :
    ((∃ u ∈ s.tasks, normalizeTitle u.title = normalizeTitle t) →
      (createTask s body).1.body = some ⟨"error", some 400,
        "A task with this title already exists. Please use a unique title", none⟩ ∧
      (createTask s body).2 = s) ∧
    ((∀ u ∈ s.tasks, normalizeTitle u.title ≠ normalizeTitle t) →
      (createTask s body).1.body = some ⟨"success", some 201,
        "Task created successfully",
        some (some [⟨s.nextId, normalizeTitle t, c, false⟩])⟩ ∧
      (createTask s body).1.transportStatus = some 201 ∧
      (createTask s body).2.tasks =
        s.tasks ++ [⟨s.nextId, normalizeTitle t, c, false⟩]) := by
  constructor
  · rintro ⟨w, hw, hwt⟩
    have hwt2 : w.title = normalizeTitle t := (hinv w hw).trans hwt
    cases hfind : s.findByTitle (normalizeTitle t) with
    | none =>
      have hfind2 : s.tasks.find? (fun x => x.title == normalizeTitle t) = none := hfind
      exact absurd (by simp [hwt2] : (w.title == normalizeTitle t) = true)
        (List.find?_eq_none.mp hfind2 w hw)
    | some x =>
      refine ⟨?_, ?_⟩ <;> simp [createTask, hparse, hfind, sendError, res0]
  · intro hall
    have hfind : s.findByTitle (normalizeTitle t) = none := by
      rw [Store.findByTitle, List.find?_eq_none]
      intro x hx
      simp only [beq_iff_eq]
      intro hxe
      exact hall x hx ((hinv x hx).symm.trans hxe)
    have hany : ¬ s.tasks.any (fun x => x.title == normalizeTitle t) = true := by
      rw [List.any_eq_true]
      rintro ⟨x, hx, hxt⟩
      rw [beq_iff_eq] at hxt
      exact hall x hx ((hinv x hx).symm.trans hxt)
    refine ⟨?_, ?_, ?_⟩ <;>
      simp [createTask, hparse, hfind, Store.create, hany, sendSuccess, res0]

/-- C4 witness: with the normalized task "learn prisma" stored, the create
request titled "LEARN PRISMA" (case and padding differ only) answers the
400 duplicate envelope and leaves the store as it was. -/
theorem createTask_duplicate_pre_check_witness :
    (createTask ⟨[⟨1, "learn prisma", "blue", false⟩], 2⟩
        ⟨some "LEARN PRISMA", some "red", none⟩).1.body =
      some ⟨"error", some 400,
        "A task with this title already exists. Please use a unique title", none⟩ ∧
    (createTask ⟨[⟨1, "learn prisma", "blue", false⟩], 2⟩
        ⟨some "LEARN PRISMA", some "red", none⟩).2 =
      ⟨[⟨1, "learn prisma", "blue", false⟩], 2⟩ :=
  (createTask_duplicate_pre_check ⟨[⟨1, "learn prisma", "blue", false⟩], 2⟩
    ⟨some "LEARN PRISMA", some "red", none⟩ "LEARN PRISMA" "red" none
    rfl (by decide)).1 (by decide)

/-- C5: when schema validation of the create body fails, the handler answers
400 with the first violated field's message and the store is unchanged; for
a body whose title is the empty string that message is exactly
"Title is required". -/
theorem createTask_validation_failure (s : Store) (body : RequestBody)
    (m : String) (h : taskSchemaParse body = Except.error m) :
    ((createTask s body).1.body = some ⟨"error", some 400, m, none⟩ ∧
     (createTask s body).2 = s) ∧
    (body.title = some "" → m = "Title is required") := by
  constructor
  · refine ⟨?_, ?_⟩ <;> simp [createTask, h, sendError, res0]
  · intro ht
    have h2 : taskSchemaParse body = Except.error "Title is required" := by
      simp [taskSchemaParse, ht]
    rw [h2] at h
    exact (Except.error.inj h).symm

/-- C5 witness: a create body with an empty title on a one-task store
answers 400 "Title is required" and persists nothing. -/
theorem createTask_validation_failure_witness :
    (createTask ⟨[⟨1, "learn prisma", "blue", false⟩], 2⟩
        ⟨some "", some "red", none⟩).1.body =
      some ⟨"error", some 400, "Title is required", none⟩ ∧
    (createTask ⟨[⟨1, "learn prisma", "blue", false⟩], 2⟩
        ⟨some "", some "red", none⟩).2 =
      ⟨[⟨1, "learn prisma", "blue", false⟩], 2⟩ :=
  (createTask_validation_failure ⟨[⟨1, "learn prisma", "blue", false⟩], 2⟩
    ⟨some "", some "red", none⟩ "Title is required" rfl).1

/-- C6: a storage-layer unique-constraint violation (Prisma code P2002) is
translated to a 400 envelope whose message names the offending field: the
centralized middleware interpolates `meta.target[0]` into its message, and
createTask's own catch arm answers the 400 message naming the title field. -/
theorem p2002_maps_to_400_naming_field (env : String) (err : AppError)
    (f : String) (rest : List String)
    (hc : err.isCustomError = false) (hcode : err.code = some "P2002")
    (hmeta : err.metaTarget = some (f :: rest)) (hf : f ≠ "") :
    (errorMiddleware env err).body = some ⟨"error", some 400,
      "A task with this " ++ f ++ " already exists. Please use a unique value.",
      none⟩ ∧
    (createTaskDbErrorResponse "P2002").body = some ⟨"error", some 400,
      "A task with this title already exists. Please use a unique title.",
      none⟩ := by
  constructor
  · simp [errorMiddleware, hc, hcode, hmeta, hf, sendError, res0]
  · simp [createTaskDbErrorResponse, sendError, res0]

/-- C6 witness: a non-custom error with code P2002 and `meta.target =
["title"]` is answered with the 400 envelope naming "title". -/
theorem p2002_maps_to_400_naming_field_witness :
    (errorMiddleware "development" ⟨false, 0, "db error", some "P2002",
        some ["title"]⟩).body = some ⟨"error", some 400,
      "A task with this title already exists. Please use a unique value.",
      none⟩ ∧
    (createTaskDbErrorResponse "P2002").body = some ⟨"error", some 400,
      "A task with this title already exists. Please use a unique title.",
      none⟩ := by
  have h := p2002_maps_to_400_naming_field "development"
    ⟨false, 0, "db error", some "P2002", some ["title"]⟩ "title" []
    rfl rfl rfl (by decide)
  exact h

/-- C8: an unclassified error (neither a custom error nor one carrying a
Prisma code) is answered 500; outside production the message is the raw
error text (with the JS fallback on an empty message), in production it is
the fixed generic text — and, as a two-run statement, the production
response is identical for any two unclassified errors, so no internal
detail flows into the body. -/
theorem unclassified_error_500 (env : String) (err err2 : AppError)
    (hc : err.isCustomError = false) (hcode : err.code = none)
    (hc2 : err2.isCustomError = false) (hcode2 : err2.code = none) :
    ((errorMiddleware env err).body.map Envelope.statusCode = some (some 500)) ∧
    (env ≠ "production" → err.message ≠ "" →
      (errorMiddleware env err).body =
        some ⟨"error", some 500, err.message, none⟩) ∧
    ((errorMiddleware "production" err).body = some ⟨"error", some 500,
      "Something went wrong. Please try again later.", none⟩) ∧
    (errorMiddleware "production" err = errorMiddleware "production" err2) := by
  refine ⟨?_, ?_, ?_, ?_⟩
  · by_cases he : env = "production" <;>
      simp [errorMiddleware, hc, hcode, he, sendError, res0]
  · intro h1 h2
    simp [errorMiddleware, hc, hcode, h1, h2, sendError, res0]
  · simp [errorMiddleware, hc, hcode, sendError, res0]
  · simp [errorMiddleware, hc, hcode, hc2, hcode2, sendError, res0]

/-- C8 witness: in "development" the raw message "boom" is echoed in the 500
envelope; in "production" the responses to two unclassified errors with
different internal messages coincide. -/
theorem unclassified_error_500_witness :
    (errorMiddleware "development" ⟨false, 0, "boom", none, none⟩).body =
      some ⟨"error", some 500, "boom", none⟩ ∧
    errorMiddleware "production" ⟨false, 0, "boom", none, none⟩ =
      errorMiddleware "production" ⟨false, 0, "secret detail", none, none⟩ :=
  ⟨(unclassified_error_500 "development" ⟨false, 0, "boom", none, none⟩
      ⟨false, 0, "secret detail", none, none⟩ rfl rfl rfl rfl).2.1
      (by decide) (by decide),
   (unclassified_error_500 "development" ⟨false, 0, "boom", none, none⟩
      ⟨false, 0, "secret detail", none, none⟩ rfl rfl rfl rfl).2.2.2⟩

/-- C9: createTask builds the persisted row from only the normalized title
and the color — the request's `completed` field (validated but discarded by
the destructuring) never reaches the store, so the new row carries the
storage default `completed = false` whatever the body said. -/
theorem createTask_ignores_completed (s : Store) (body : RequestBody)
    (t c : String) (comp : Option Bool)
    (hparse : taskSchemaParse body = Except.ok (t, c, comp))
    (hnodup : s.findByTitle (normalizeTitle t) = none) :
    (createTask s body).2.tasks =
      s.tasks ++ [⟨s.nextId, normalizeTitle t, c, false⟩] ∧
    (createTask s body).1.body = some ⟨"success", some 201,
      "Task created successfully",
      some (some [⟨s.nextId, normalizeTitle t, c, false⟩])⟩ := by
  have hnodup2 : s.tasks.find? (fun x => x.title == normalizeTitle t) = none :=
    hnodup
  have hany : ¬ s.tasks.any (fun x => x.title == normalizeTitle t) = true := by
    rw [List.any_eq_true]
    rintro ⟨x, hx, hxt⟩
    exact List.find?_eq_none.mp hnodup2 x hx hxt
  constructor <;>
    simp [createTask, hparse, hnodup, Store.create, hany, sendSuccess, res0]

/-- C9 witness: a create body carrying `completed: true` still persists the
row `⟨1, "learn prisma", "blue", false⟩` on the empty store. -/
theorem createTask_ignores_completed_witness :
    (createTask ⟨[], 1⟩ ⟨some "Learn Prisma", some "blue", some true⟩).2.tasks =
      [⟨1, "learn prisma", "blue", false⟩] ∧
    (createTask ⟨[], 1⟩ ⟨some "Learn Prisma", some "blue", some true⟩).1.body =
      some ⟨"success", some 201, "Task created successfully",
        some (some [⟨1, "learn prisma", "blue", false⟩])⟩ := by
  have h := createTask_ignores_completed ⟨[], 1⟩
    ⟨some "Learn Prisma", some "blue", some true⟩ "Learn Prisma" "blue"
    (some true) rfl (by decide)
  simpa using h

/-- C7: an update request on an existing id whose body carries none of the
recognized fields partial-validates to the empty patch, so the handler
answers 200 "Task updated successfully" with the untouched record and the
stored rows are exactly what they were. The two hypotheses besides existence
are the store's primary-key and unique-title constraints. -/
theorem updateTask_empty_body_unchanged (s : Store) (id : Nat) (t : Task)
    (hids : ∀ u ∈ s.tasks, ∀ v ∈ s.tasks, u.id = v.id → u = v)
    (htitles : ∀ u ∈ s.tasks, ∀ v ∈ s.tasks, u.title = v.title → u = v)
    (hfind : s.findById id = some t) :
    (updateTask s id ⟨none, none, none⟩).1.body =
      some ⟨"success", some 200, "Task updated successfully", some (some [t])⟩ ∧
    (updateTask s id ⟨none, none, none⟩).1.transportStatus = some 200 ∧
    (updateTask s id ⟨none, none, none⟩).2.tasks = s.tasks := by
  have hfind2 : s.tasks.find? (fun x => x.id == id) = some t := hfind
  have htmem : t ∈ s.tasks := List.mem_of_find?_eq_some hfind2
  have htid : t.id = id := by
    have h := List.find?_some hfind2
    simpa using h
  have hap : applyPartial t ⟨none, none, none⟩ = t := rfl
  have hany : ¬ s.tasks.any (fun u => u.id != id && u.title == t.title) = true := by
    rw [List.any_eq_true]
    rintro ⟨u, hu, hcond⟩
    simp only [Bool.and_eq_true, bne_iff_ne, ne_eq, beq_iff_eq] at hcond
    exact hcond.1 (by rw [htitles u hu t htmem hcond.2]; exact htid)
  have hmap : s.tasks.map (fun u => if u.id == id then t else u) = s.tasks := by
    have hcong : ∀ u ∈ s.tasks,
        (fun u => if u.id == id then t else u) u = (fun u => u) u := by
      intro u hu
      by_cases hid2 : (u.id == id) = true
      · simp only [if_pos hid2]
        have hueq : u.id = id := by simpa using hid2
        exact (hids t htmem u hu (htid.trans hueq.symm))
      · simp only [if_neg hid2]
    rw [List.map_congr_left hcong]
    exact List.map_id' s.tasks
  have hupd : s.updateById id ⟨none, none, none⟩ =
      Except.ok (t, ⟨s.tasks, s.nextId⟩) := by
    simp only [Store.updateById, hfind2, hap]
    rw [if_neg hany, hmap]
  refine ⟨?_, ?_, ?_⟩ <;>
    simp [updateTask, taskSchemaPartialParse, hfind, hupd, sendSuccess, res0]

/-- C7 witness: on a two-task store, updating id 1 with the empty body
answers 200 with task 1 unchanged and leaves both rows as they were. -/
theorem updateTask_empty_body_unchanged_witness :
    (updateTask ⟨[⟨1, "learn prisma", "blue", false⟩,
        ⟨2, "write tests", "red", true⟩], 3⟩ 1 ⟨none, none, none⟩).1.body =
      some ⟨"success", some 200, "Task updated successfully",
        some (some [⟨1, "learn prisma", "blue", false⟩])⟩ ∧
    (updateTask ⟨[⟨1, "learn prisma", "blue", false⟩,
        ⟨2, "write tests", "red", true⟩], 3⟩ 1 ⟨none, none, none⟩).1.transportStatus =
      some 200 ∧
    (updateTask ⟨[⟨1, "learn prisma", "blue", false⟩,
        ⟨2, "write tests", "red", true⟩], 3⟩ 1 ⟨none, none, none⟩).2.tasks =
      [⟨1, "learn prisma", "blue", false⟩, ⟨2, "write tests", "red", true⟩] :=
  updateTask_empty_body_unchanged
    ⟨[⟨1, "learn prisma", "blue", false⟩, ⟨2, "write tests", "red", true⟩], 3⟩ 1
    ⟨1, "learn prisma", "blue", false⟩ (by decide) (by decide) (by decide)

/-- C10: updateTask has no duplicate-title pre-check: when the patched
record's title collides with another stored task's title, the storage layer
reports the unique-constraint violation and the handler's catch block
answers the 500 "Failed to update task" envelope — not the 400
duplicate-title message — leaving the store unchanged. -/
theorem updateTask_title_collision_500 (s : Store) (id : Nat)
    (body : RequestBody) (t w : Task)
    (hfind : s.findById id = some t)
    (htp : taskSchemaPartialParse body = Except.ok body)
    (hw : w ∈ s.tasks) (hwid : w.id ≠ id)
    (hwt : w.title = (applyPartial t body).title) :
    (updateTask s id body).1.body =
      some ⟨"error", some 500, "Failed to update task", none⟩ ∧
    (updateTask s id body).1.body ≠
      some ⟨"error", some 400,
        "A task with this title already exists. Please use a unique title", none⟩ ∧
    (updateTask s id body).2 = s := by
  have hfind2 : s.tasks.find? (fun x => x.id == id) = some t := hfind
  have hany : s.tasks.any
      (fun x => x.id != id && x.title == (applyPartial t body).title) = true := by
    rw [List.any_eq_true]
    exact ⟨w, hw, by simp [hwid, hwt]⟩
  have hupd : s.updateById id body = Except.error (.uniqueViolation ["title"]) := by
    simp [Store.updateById, hfind2, hany]
  have hresp : (updateTask s id body).1 =
      sendError res0 "Failed to update task" 500 := by
    simp [updateTask, hfind, htp, hupd]
  refine ⟨?_, ?_, ?_⟩
  · rw [hresp]; rfl
  · rw [hresp]; decide
  · simp [updateTask, hfind, htp, hupd]

/-- C10 witness: updating task 2's title to "foo" while task 1 already holds
"foo" answers the 500 "Failed to update task" envelope, not the duplicate
message, and changes nothing. -/
theorem updateTask_title_collision_500_witness :
    (updateTask ⟨[⟨1, "foo", "blue", false⟩, ⟨2, "bar", "green", false⟩], 3⟩ 2
        ⟨some "foo", none, none⟩).1.body =
      some ⟨"error", some 500, "Failed to update task", none⟩ ∧
    (updateTask ⟨[⟨1, "foo", "blue", false⟩, ⟨2, "bar", "green", false⟩], 3⟩ 2
        ⟨some "foo", none, none⟩).1.body ≠
      some ⟨"error", some 400,
        "A task with this title already exists. Please use a unique title", none⟩ ∧
    (updateTask ⟨[⟨1, "foo", "blue", false⟩, ⟨2, "bar", "green", false⟩], 3⟩ 2
        ⟨some "foo", none, none⟩).2 =
      ⟨[⟨1, "foo", "blue", false⟩, ⟨2, "bar", "green", false⟩], 3⟩ :=
  updateTask_title_collision_500
    ⟨[⟨1, "foo", "blue", false⟩, ⟨2, "bar", "green", false⟩], 3⟩ 2
    ⟨some "foo", none, none⟩ ⟨2, "bar", "green", false⟩ ⟨1, "foo", "blue", false⟩
    (by decide) rfl (by decide) (by decide) rfl

end Todo
